import Mathlib

/-
Verification development for the STT streaming core of the voicerag-tr
repository: the audio frame slicer and voice-activity segmenter
(services/stt/app/vad/webrtc_vad.py), the Vosk streaming engine adapter
(services/stt/app/engines/vosk_engine.py), and the websocket session
protocol handler (services/stt/app/routers/stream.py).

Conventions of the embedding:
- Python byte strings are `List Nat` (one entry per byte).
- Python floats used for timestamps/durations are modelled as exact
  rationals; for the two float comparisons in the code
  (`num > 0.9 * maxlen` with integer `num`, `maxlen`, and
  `int(sample_rate * (frame_ms / 1000.0) * 2)` with the bounded integer
  ranges the code can meet) the double-precision evaluation provably
  agrees with exact rational arithmetic, so the integer forms
  `10 * num > 9 * maxlen` and `sample_rate * frame_ms * 2 / 1000`
  (truncated division) are exact translations.
- The external webrtcvad classifier (`vad.is_speech`) is an arbitrary
  function `Frame → Bool`; the external Vosk KaldiRecognizer is an
  arbitrary behaviour oracle giving the outcome of each recognizer call;
  the external whisper.cpp `transcribe` is an arbitrary function from the
  segment bytes to a result or an error.
- Fallible calls return `Except String`; a `.error` value models a raised
  Python exception with that message.
-/

namespace VoiceRag

/-! Audio frame slicer: services/stt/app/vad/webrtc_vad.py -/

/-- One PCM16 frame (class `Frame` in webrtc_vad.py): raw bytes, start
timestamp in seconds, duration in seconds. -/
structure Frame where
  bytes : List Nat
  timestamp : ℚ
  duration : ℚ
deriving DecidableEq, Repr

/-- `_normalize_frame_ms` in webrtc_vad.py: round the requested frame
duration to one of the durations accepted by WebRTC VAD. -/
def normalize_frame_ms (frame_ms : ℤ) : ℤ :=
  if frame_ms ≤ 10 then 10
  else if frame_ms ≤ 20 then 20
  else 30

/-- Bytes per frame as computed in `frame_generator`:
`int(sample_rate * (frame_ms / 1000.0) * 2)` with `frame_ms` already
normalized; for the integers involved this equals truncated division. -/
def bytesPerFrame (sample_rate : ℕ) (frame_duration_ms : ℤ) : ℕ :=
  sample_rate * (normalize_frame_ms frame_duration_ms).toNat * 2 / 1000

/-- The `while offset + bytes_per_frame <= total` loop of
`frame_generator`, with the remaining input as explicit state.  The fuel
argument is a termination bound only: each iteration consumes `bpf ≥ 1`
bytes, so `pcm.length` fuel always suffices (the source loop does not
terminate when `bpf = 0`; the model returns `[]` there). -/
def sliceGo (bpf : ℕ) (dur : ℚ) : ℕ → ℚ → List ℕ → List Frame
  | 0, _, _ => []
  | fuel + 1, ts, pcm =>
    if 0 < bpf ∧ bpf ≤ pcm.length then
      ⟨pcm.take bpf, ts, dur⟩ :: sliceGo bpf dur fuel (ts + dur) (pcm.drop bpf)
    else []

/-- `frame_generator` in webrtc_vad.py: slice a PCM16 byte string into
fixed-size frames; the trailing remainder shorter than one frame is
dropped. -/
def frame_generator (frame_duration_ms : ℤ) (pcm16 : List ℕ) (sample_rate : ℕ) :
    List Frame :=
  let bpf := bytesPerFrame sample_rate frame_duration_ms
  sliceGo bpf ((bpf : ℚ) / (2 * (sample_rate : ℚ))) pcm16.length 0 pcm16

/-! Voice-activity segmenter: `vad_collector` in webrtc_vad.py -/

/-- State of the `vad_collector` loop: the fixed ring-buffer capacity
(`ring_buffer.maxlen`), the `triggered` flag, the ring buffer contents
(oldest first, each frame paired with its speech classification), and the
accumulated `voiced_frames`. -/
structure VadState where
  cap : ℕ
  triggered : Bool
  ring : List (Frame × Bool)
  voiced : List Frame

/-- `ring_buffer.append` on a `deque(maxlen = cap)`: append on the right,
evicting the oldest element once the buffer is full. -/
def pushRing (cap : ℕ) (r : List (Frame × Bool)) (x : Frame × Bool) :
    List (Frame × Bool) :=
  if r.length < cap then r ++ [x] else r.drop 1 ++ [x]

/-- `sum(1 for _, s in ring_buffer if s)`. -/
def countSpeech (r : List (Frame × Bool)) : ℕ :=
  (r.filter (fun p => p.2)).length

/-- `sum(1 for _, s in ring_buffer if not s)`. -/
def countSilence (r : List (Frame × Bool)) : ℕ :=
  (r.filter (fun p => !p.2)).length

/-- One iteration of the `for frame in frames` loop of `vad_collector`:
returns the new state and the list of segments (as frame lists) emitted
during this iteration.  The float comparison `n > 0.9 * maxlen` is the
integer comparison `10 * n > 9 * maxlen`. -/
def vadStep (c : Frame → Bool) (s : VadState) (f : Frame) :
    VadState × List (List Frame) :=
  let sp := c f
  if s.triggered then
    let v := s.voiced ++ [f]
    let r := pushRing s.cap s.ring (f, sp)
    if 10 * countSilence r > 9 * s.cap then
      (⟨s.cap, false, [], []⟩, [v])
    else
      (⟨s.cap, true, r, v⟩, [])
  else
    let r := pushRing s.cap s.ring (f, sp)
    if 10 * countSpeech r > 9 * s.cap then
      (⟨s.cap, true, [], s.voiced ++ r.map Prod.fst⟩, [])
    else
      (⟨s.cap, false, r, s.voiced⟩, [])

/-- The whole `for frame in frames` loop: final state plus all segments
emitted during the loop, in emission order. -/
def vadFold (c : Frame → Bool) : VadState → List Frame → VadState × List (List Frame)
  | s, [] => (s, [])
  | s, f :: rest =>
    let se := vadStep c s f
    let r := vadFold c se.1 rest
    (r.1, se.2 ++ r.2)

/-- `num_padding_frames = max(1, int(padding_duration_ms / frame_duration_ms))`
in `vad_collector`; Python `int(...)` truncates toward zero, which is
`Int.div`. -/
def numPaddingFrames (padding_ms frame_ms : ℤ) : ℕ :=
  max 1 (Int.toNat (Int.tdiv padding_ms frame_ms))

/-- Initial state of `vad_collector`. -/
def vadInit (cap : ℕ) : VadState := ⟨cap, false, [], []⟩

/-- All segments emitted by `vad_collector` at the frame level: the loop
emissions followed by the end-of-input flush of a non-empty
`voiced_frames`. -/
def vadSegmentsFrames (c : Frame → Bool) (cap : ℕ) (frames : List Frame) :
    List (List Frame) :=
  let r := vadFold c (vadInit cap) frames
  r.2 ++ (if r.1.voiced.isEmpty then [] else [r.1.voiced])

/-- `_emit_segment`: concatenate the bytes of a segment's frames. -/
def emit_segment (fs : List Frame) : List ℕ :=
  (fs.map Frame.bytes).flatten

/-- `vad_collector` in webrtc_vad.py.  The webrtcvad classifier built from
`sample_rate` and the clamped aggressiveness is abstracted as the
classifier `c`; the generator's yields are returned as a list of byte
blocks. -/
def vad_collector (_sample_rate : ℕ) (frame_duration_ms padding_duration_ms : ℤ)
    (c : Frame → Bool) (frames : List Frame) : List (List ℕ) :=
  let fm := normalize_frame_ms frame_duration_ms
  (vadSegmentsFrames c (numPaddingFrames padding_duration_ms fm) frames).map
    emit_segment

/-! Vosk engine adapter: services/stt/app/engines/vosk_engine.py -/

/-- A JSON object produced by the Vosk recognizer
(`Result`/`PartialResult`/`FinalResult` after `json.loads`): the fields
the adapter reads.  `interim` stands for the JSON key "partial". -/
structure VoskRaw where
  text : Option String
  result : Option (List String)
  interim : Option String
deriving DecidableEq, Repr

/-- Behaviour oracle for one external KaldiRecognizer: the outcome of the
`n`-th `AcceptWaveform` call (`.error` models a raised exception), the
JSON read by `Result()` / `PartialResult()` after the `n`-th call, and
the JSON read by `FinalResult()`. -/
structure RecBehavior where
  accept : ℕ → Except String Bool
  resultAt : ℕ → VoskRaw
  interimAt : ℕ → VoskRaw
  finalResult : Except String VoskRaw

/-- A live recognizer: its behaviour oracle plus the number of
`AcceptWaveform` calls made so far. -/
structure Recognizer where
  behavior : RecBehavior
  calls : ℕ

/-- `VoskEngine`: only the streaming state matters here
(`self._recognizer`, None before `stream_init`). -/
structure VoskEngine where
  recognizer : Option Recognizer

/-- A normalized recognition result as built by `stream_feed` /
`stream_finalize` / `transcribe` (the dict with "final", "text",
"words", "raw"). -/
structure RecogResult where
  final : Bool
  text : String
  words : Option (List String)
  raw : VoskRaw
deriving DecidableEq, Repr

/-- `VoskEngine.stream_init`: installs a fresh recognizer. -/
def VoskEngine.stream_init (_e : VoskEngine) (b : RecBehavior) : VoskEngine :=
  ⟨some ⟨b, 0⟩⟩

/-- `VoskEngine.stream_feed`: returns None when no recognizer was
initialized; otherwise one `AcceptWaveform` call, then `Result()`
(parsed by `_parse_final_result`) when it returned True, else
`PartialResult()` (parsed by `_parse_partial_result`). -/
def VoskEngine.stream_feed (e : VoskEngine) (_pcm16 : List ℕ) :
    Except String (Option RecogResult) × VoskEngine :=
  match e.recognizer with
  | none => (.ok none, e)
  | some r =>
    let e' : VoskEngine := ⟨some ⟨r.behavior, r.calls + 1⟩⟩
    match r.behavior.accept r.calls with
    | .error m => (.error m, e')
    | .ok true =>
      let raw := r.behavior.resultAt r.calls
      (.ok (some ⟨true, raw.text.getD "", raw.result, raw⟩), e')
    | .ok false =>
      let raw := r.behavior.interimAt r.calls
      (.ok (some ⟨false, raw.interim.getD "", none, raw⟩), e')

/-- `VoskEngine.stream_finalize`: returns None when no recognizer was
initialized; otherwise parses `FinalResult()` and returns it with
`final := true`. -/
def VoskEngine.stream_finalize (e : VoskEngine) :
    Except String (Option RecogResult) × VoskEngine :=
  match e.recognizer with
  | none => (.ok none, e)
  | some r =>
    match r.behavior.finalResult with
    | .error m => (.error m, e)
    | .ok raw => (.ok (some ⟨true, raw.text.getD "", raw.result, raw⟩), e)

/-! Session protocol handler: services/stt/app/routers/stream.py -/

/-- Result of a whisper.cpp `transcribe` call as read by the router
(`res.get("text", "")`; whisper results carry no "words" key). -/
structure TRes where
  text : String
deriving DecidableEq, Repr

/-- Incoming websocket messages: a text frame that is invalid JSON, a
`start` control message, a text frame with an unknown `type`, a `stop`
control message, or a binary PCM16 chunk. -/
inductive Msg where
  | invalidText
  | startMsg
  | otherText
  | stopMsg
  | chunk (b : List ℕ)

/-- Outbound events sent over the websocket (the "type" field of the JSON
payloads; `interimE` stands for "partial"). -/
inductive Ev where
  | errorE (m : String)
  | ackE
  | interimE (t : String)
  | finalE (t : String) (words : Option (List String))
  | doneE
deriving DecidableEq, Repr

/-- Result of a streaming-capable (Vosk) session run: emitted events,
final engine state, whether the handler closed the connection, and the
number of `stream_feed` calls made. -/
structure VoskRun where
  events : List Ev
  engine : VoskEngine
  closed : Bool
  feeds : ℕ

/-- The `while True` receive loop of the `stream` websocket handler for a
streaming-capable engine.  An exhausted message list models the client
disconnecting (the handler then exits silently without closing). -/
def voskLoop (e : VoskEngine) : List Msg → VoskRun
  | [] => ⟨[], e, false, 0⟩
  | .invalidText :: rest => voskLoop e rest
  | .otherText :: rest => voskLoop e rest
  | .startMsg :: rest =>
    let r := voskLoop e rest
    ⟨.ackE :: r.events, r.engine, r.closed, r.feeds⟩
  | .stopMsg :: _ =>
    let fr := e.stream_finalize
    let evs :=
      match fr.1 with
      | .error m => [Ev.errorE ("finalize failed: " ++ m)]
      | .ok none => []
      | .ok (some f) => if f.text = "" then [] else [Ev.finalE f.text f.words]
    ⟨evs ++ [Ev.doneE], fr.2, true, 0⟩
  | .chunk b :: rest =>
    let fr := e.stream_feed b
    let evs :=
      match fr.1 with
      | .error m => [Ev.errorE ("stream_feed failed: " ++ m)]
      | .ok none => []
      | .ok (some f) =>
        if f.final then [Ev.finalE f.text f.words] else [Ev.interimE f.text]
    let r := voskLoop fr.2 rest
    ⟨evs ++ r.events, r.engine, r.closed, r.feeds + 1⟩

/-- Result of a batch-only (whisper.cpp) session run: emitted events, the
accumulation buffer, whether the handler closed the connection, and the
number of `transcribe` calls made. -/
structure BatchRun where
  events : List Ev
  buffer : List ℕ
  closed : Bool
  transcribes : ℕ

/-- The `for segment in vad_collector(...)` loop inside the batch `stop`
branch, together with its surrounding `try`: each segment is transcribed
and emitted as a `final` event; the first raised exception aborts the
loop and is reported as a single `error` event.  Returns the events and
the number of `transcribe` calls made. -/
def batchFlush (tr : List ℕ → Except String TRes) :
    List (List ℕ) → List Ev × ℕ
  | [] => ([], 0)
  | s :: rest =>
    match tr s with
    | .error m => ([Ev.errorE ("VAD/batch failed: " ++ m)], 1)
    | .ok t =>
      let r := batchFlush tr rest
      (Ev.finalE t.text none :: r.1, r.2 + 1)

/-- The `while True` receive loop of the `stream` websocket handler for a
batch-only engine: binary chunks are appended to the accumulation
buffer; `stop` runs the slicer and segmenter over the buffer,
transcribes each segment, clears the buffer (the `finally` block runs on
success and on failure alike), emits `done` and closes. -/
def batchLoop (tr : List ℕ → Except String TRes) (c : Frame → Bool)
    (sample_rate : ℕ) (vad_frame_ms vad_padding_ms : ℤ) :
    List ℕ → List Msg → BatchRun
  | buffer, [] => ⟨[], buffer, false, 0⟩
  | buffer, .invalidText :: rest =>
    batchLoop tr c sample_rate vad_frame_ms vad_padding_ms buffer rest
  | buffer, .otherText :: rest =>
    batchLoop tr c sample_rate vad_frame_ms vad_padding_ms buffer rest
  | buffer, .startMsg :: rest =>
    let r := batchLoop tr c sample_rate vad_frame_ms vad_padding_ms buffer rest
    ⟨.ackE :: r.events, r.buffer, r.closed, r.transcribes⟩
  | buffer, .stopMsg :: _ =>
    if buffer.isEmpty then ⟨[Ev.doneE], buffer, true, 0⟩
    else
      let segs := vad_collector sample_rate vad_frame_ms vad_padding_ms c
        (frame_generator vad_frame_ms buffer sample_rate)
      let fl := batchFlush tr segs
      ⟨fl.1 ++ [Ev.doneE], [], true, fl.2⟩
  | buffer, .chunk b :: rest =>
    batchLoop tr c sample_rate vad_frame_ms vad_padding_ms (buffer ++ b) rest

/-- Configuration facts `_get_engine` checks on the filesystem: whether
the Vosk model directory, the whisper-cli binary and the whisper model
file exist. -/
structure Env where
  voskModelDir : Bool
  whisperCli : Bool
  whisperModel : Bool

/-- Which engine `_get_engine` resolved. -/
inductive EngineKind where
  | voskK
  | whisperK
deriving DecidableEq, Repr

/-- Python `str.lower()` as used on engine identifiers (ASCII lowering,
character by character; equal to `String.toLower`, but defined by
structural recursion over the character list so that it evaluates). -/
def lowerStr (s : String) : String := ⟨s.data.map Char.toLower⟩

/-- `_get_engine` in routers/stream.py: resolve the engine identifier,
checking the required model/binary paths; failures carry the HTTP error
detail.  The concrete paths interpolated into the detail strings are
elided. -/
def get_engine (env : Env) (engine_name : String) : Except String EngineKind :=
  let n := lowerStr engine_name
  if n = "vosk" then
    if env.voskModelDir then .ok .voskK
    else .error "Vosk model path not found"
  else if n = "whispercpp" then
    if !env.whisperCli then .error "whisper-cli not found"
    else if !env.whisperModel then .error "Whisper model not found"
    else .ok .whisperK
  else .error ("Unknown engine: " ++ engine_name)

/-- Observable outcome of one whole websocket session: events in emission
order, whether the handler closed the connection, and how many engine
audio calls (`stream_feed` or `transcribe`) were made. -/
structure SessionLog where
  events : List Ev
  closed : Bool
  engineCalls : ℕ

/-- The `stream` websocket endpoint: resolve the engine (emitting a single
error and closing on failure), call `stream_init`, then run the receive
loop in streaming or batch mode.  `b` is the behaviour oracle a fresh
Vosk recognizer would have; `tr` is the whisper.cpp transcribe oracle;
`c` is the VAD classifier. -/
def stream (env : Env) (engine : String) (b : RecBehavior)
    (tr : List ℕ → Except String TRes) (c : Frame → Bool)
    (sample_rate : ℕ) (vad_frame_ms vad_padding_ms : ℤ)
    (msgs : List Msg) : SessionLog :=
  match get_engine env engine with
  | .error d => ⟨[Ev.errorE d], true, 0⟩
  | .ok .voskK =>
    let r := voskLoop (VoskEngine.stream_init ⟨none⟩ b) msgs
    ⟨r.events, r.closed, r.feeds⟩
  | .ok .whisperK =>
    let r := batchLoop tr c sample_rate vad_frame_ms vad_padding_ms [] msgs
    ⟨r.events, r.closed, r.transcribes⟩

/-! Auxiliary definitions for the proofs -/

/-- Frames of the segmenter state that can still reach the output: the
in-progress segment while ACTIVE, and (in addition to the always-empty
in-progress segment) the ring-buffer frames while IDLE. -/
def reach (s : VadState) : List Frame :=
  if s.triggered then s.voiced else s.voiced ++ s.ring.map Prod.fst

/-- A zero frame, used as a concrete input. -/
def frame0 : Frame := ⟨[0], 0, 0⟩

/-- Concrete PCM input: four 160-byte frame payloads (at 8000 Hz / 10 ms,
one frame is 160 bytes): speech, silence, speech, silence for the
classifier `cC4`. -/
def pcmC4 : List ℕ :=
  List.replicate 160 1 ++ List.replicate 160 0 ++
    List.replicate 160 1 ++ List.replicate 160 2

/-- Concrete classifier: a frame is speech iff its first byte is 1. -/
def cC4 : Frame → Bool := fun f => f.bytes.head? == some 1

/-- Concrete transcribe oracle: fails on any segment containing a 0 byte,
succeeds with text "ok2" otherwise. -/
def trC4 : List ℕ → Except String TRes :=
  fun s => if s.contains 0 then .error "boom" else .ok ⟨"ok2"⟩

/-- A trivial recognizer behaviour oracle. -/
def bTrivial : RecBehavior :=
  ⟨fun _ => .ok false, fun _ => ⟨none, none, none⟩, fun _ => ⟨none, none, none⟩,
    .ok ⟨none, none, none⟩⟩

/-- Recognizer behaviour whose `FinalResult` carries an empty transcript
(what Vosk returns at end of stream when nothing is left to flush). -/
def bEmptyFinal : RecBehavior :=
  ⟨fun _ => .ok false, fun _ => ⟨none, none, none⟩, fun _ => ⟨none, none, none⟩,
    .ok ⟨some "", none, none⟩⟩

/-- Recognizer behaviour whose `FinalResult` carries the transcript "hi". -/
def bHiFinal : RecBehavior :=
  ⟨fun _ => .ok false, fun _ => ⟨none, none, none⟩, fun _ => ⟨none, none, none⟩,
    .ok ⟨some "hi", none, none⟩⟩

/-- Recognizer behaviour whose every `AcceptWaveform` call raises. -/
def bFeedErr : RecBehavior :=
  ⟨fun _ => .error "boom", fun _ => ⟨none, none, none⟩, fun _ => ⟨none, none, none⟩,
    .ok ⟨none, none, none⟩⟩

/-- Environment in which every configured path exists. -/
def envAll : Env := ⟨true, true, true⟩

/-! Helper lemmas -/

/-- The normalized frame duration is one of the three supported values. -/
theorem normalize_frame_ms_mem (d : ℤ) :
    normalize_frame_ms d = 10 ∨ normalize_frame_ms d = 20 ∨
      normalize_frame_ms d = 30 := by
  unfold normalize_frame_ms
  split_ifs <;> simp

/-- Truncated integer division agrees with natural division on
nonnegative operands. -/
theorem tdiv_toNat_eq (p k : ℕ) :
    Int.toNat (Int.tdiv (p : ℤ) (k : ℤ)) = p / k := rfl

/-! C2 -/

/-- C2 is false as stated: the normalization of a requested duration of
31 ms is 30 ms, which is not greater than or equal to 31, so no element
of \x7b10, 20, 30\x7d has the claimed property there. -/
theorem normalize_frame_ms_counterexample :
    normalize_frame_ms 31 = 30 ∧ ¬ ((31 : ℤ) ≤ normalize_frame_ms 31) := by
  decide

/-- C2 (amended): the normalization function always returns a value in
\x7b10, 20, 30\x7d; for requests up to 30 ms the result is at least the
request and is the least supported value with that property (≤10 gives
10, 11..20 gives 20, 21..30 gives 30); every request above 20 ms gets
30, even when the request exceeds 30 so that no supported value is ≥ it. -/
theorem normalize_frame_ms_spec (d : ℤ) :
    (normalize_frame_ms d = 10 ∨ normalize_frame_ms d = 20 ∨
      normalize_frame_ms d = 30)
    ∧ (d ≤ 30 → d ≤ normalize_frame_ms d)
    ∧ (d ≤ 10 → normalize_frame_ms d = 10)
    ∧ (10 < d → d ≤ 20 → normalize_frame_ms d = 20)
    ∧ (20 < d → normalize_frame_ms d = 30) := by
  unfold normalize_frame_ms
  split_ifs <;> refine ⟨by simp, ?_, ?_, ?_, ?_⟩ <;> omega

/-- Witness for C2 at the concrete request 15 ms. -/
theorem normalize_frame_ms_instance : normalize_frame_ms 15 = 20 :=
  (normalize_frame_ms_spec 15).2.2.2.1 (by decide) (by decide)

/-! C5 -/

/-- C5 is false as stated: with padding 59 ms and normalized frame
duration 30 ms the code's capacity is max(1, int(59/30)) = 1, while
round-to-nearest would give round(59/30) = 2. -/
theorem padding_capacity_counterexample :
    numPaddingFrames 59 (normalize_frame_ms 30) = 1
    ∧ round ((59 : ℚ) / 30) = 2 := by
  refine ⟨by decide, ?_⟩
  rw [round_eq]
  norm_num

/-- C5 (amended): the ring-buffer capacity is
max(1, ⌊padding_ms / normalized_frame_ms⌋) — Python `int()` truncation,
i.e. floor for the nonnegative quotient, not round-to-nearest — and the
capacity field of the segmenter state is preserved by every step of the
segmenter, so it never changes after construction. -/
theorem padding_capacity_spec :
    (∀ (p : ℕ) (d : ℤ),
      numPaddingFrames (p : ℤ) (normalize_frame_ms d) =
        max 1 (p / (normalize_frame_ms d).toNat))
    ∧ (∀ (c : Frame → Bool) (s : VadState) (f : Frame),
      ((vadStep c s f).1).cap = s.cap) := by
  constructor
  · intro p d
    rcases normalize_frame_ms_mem d with h | h | h <;> rw [h] <;>
      exact congrArg (Max.max 1) (tdiv_toNat_eq p _)
  · intro c s f
    unfold vadStep
    dsimp only
    split <;> split <;> rfl

/-! C10 -/

/-- C10: calling `stream_feed` or `stream_finalize` on a Vosk engine with
no recognizer (no prior `stream_init`) returns no result, raises no
exception, and leaves the engine unchanged. -/
theorem uninit_stream_spec (e : VoskEngine) (b : List ℕ)
    (h : e.recognizer = none) :
    e.stream_feed b = (.ok none, e) ∧ e.stream_finalize = (.ok none, e) := by
  obtain ⟨_ | r⟩ := e
  · exact ⟨rfl, rfl⟩
  · exact Option.noConfusion h

/-- Witness for C10 on the freshly constructed engine. -/
theorem uninit_stream_instance :
    VoskEngine.stream_feed ⟨none⟩ [] = (.ok none, ⟨none⟩)
    ∧ VoskEngine.stream_finalize ⟨none⟩ = (.ok none, ⟨none⟩) :=
  uninit_stream_spec ⟨none⟩ [] rfl

/-! C9 -/

/-- C9: in a batch-only session, handling `stop` always leaves the
accumulation buffer empty and closes the connection — whatever the
transcribe oracle does, including failing — and a `stop` handled with an
empty buffer emits exactly the `done` event, with no `final` event
before it. -/
theorem batch_stop_buffer_spec (tr : List ℕ → Except String TRes)
    (c : Frame → Bool) (sr : ℕ) (fm pm : ℤ) (buffer : List ℕ)
    (rest : List Msg) :
    (batchLoop tr c sr fm pm buffer (Msg.stopMsg :: rest)).buffer = []
    ∧ (batchLoop tr c sr fm pm buffer (Msg.stopMsg :: rest)).closed = true
    ∧ (batchLoop tr c sr fm pm [] (Msg.stopMsg :: rest)).events = [Ev.doneE] := by
  refine ⟨?_, ?_, by simp [batchLoop]⟩ <;> cases buffer <;> simp [batchLoop]

/-! C3 -/

/-- C3 is false as stated: on an initialized engine whose recognizer's
`FinalResult` is an empty transcript (nothing left to flush),
`stream_finalize` still returns a result (it is never `None` once
initialized), and the `stop` handler nevertheless emits no `final`
event — the handler requires a non-empty `text` field, not merely a
non-`None` result. -/
theorem stop_finalize_counterexample :
    (VoskEngine.stream_finalize (VoskEngine.stream_init ⟨none⟩ bEmptyFinal)).1 =
      .ok (some ⟨true, "", none, ⟨some "", none, none⟩⟩)
    ∧ (voskLoop (VoskEngine.stream_init ⟨none⟩ bEmptyFinal)
        [Msg.stopMsg]).events = [Ev.doneE] :=
  ⟨rfl, rfl⟩

/-- C3 (amended): when `stop` is handled in a streaming-capable session,
`stream_finalize` is called and exactly one `final` event is emitted iff
it returns a result with non-empty text (a result with empty text or no
result yields no `final` event; an exception yields one `error` event);
afterwards `done` is emitted and the connection is closed.
`stream_finalize` on an initialized engine always returns a final
result — even when there is no unflushed content, in which case the
result's text is empty — and returns nothing only when the engine was
never initialized. -/
theorem stop_finalize_spec :
    (∀ (e : VoskEngine) (rest : List Msg) (m : String),
      (e.stream_finalize).1 = .error m →
      (voskLoop e (Msg.stopMsg :: rest)).events =
        [Ev.errorE ("finalize failed: " ++ m), Ev.doneE]
      ∧ (voskLoop e (Msg.stopMsg :: rest)).closed = true)
    ∧ (∀ (e : VoskEngine) (rest : List Msg),
      (e.stream_finalize).1 = .ok none →
      (voskLoop e (Msg.stopMsg :: rest)).events = [Ev.doneE]
      ∧ (voskLoop e (Msg.stopMsg :: rest)).closed = true)
    ∧ (∀ (e : VoskEngine) (rest : List Msg) (f : RecogResult),
      (e.stream_finalize).1 = .ok (some f) →
      (voskLoop e (Msg.stopMsg :: rest)).events =
        (if f.text = "" then [] else [Ev.finalE f.text f.words]) ++ [Ev.doneE]
      ∧ (voskLoop e (Msg.stopMsg :: rest)).closed = true)
    ∧ (∀ (b : RecBehavior) (n : ℕ) (raw : VoskRaw),
      b.finalResult = .ok raw →
      (VoskEngine.stream_finalize ⟨some ⟨b, n⟩⟩).1 =
        .ok (some ⟨true, raw.text.getD "", raw.result, raw⟩))
    ∧ (∀ e : VoskEngine, e.recognizer = none →
      (VoskEngine.stream_finalize e).1 = .ok none) := by
  refine ⟨?_, ?_, ?_, ?_, ?_⟩
  · intro e rest m h
    exact ⟨by simp [voskLoop, h], by simp [voskLoop]⟩
  · intro e rest h
    exact ⟨by simp [voskLoop, h], by simp [voskLoop]⟩
  · intro e rest f h
    exact ⟨by simp [voskLoop, h], by simp [voskLoop]⟩
  · intro b n raw h
    simp [VoskEngine.stream_finalize, h]
  · intro e h
    obtain ⟨_ | r⟩ := e
    · rfl
    · exact Option.noConfusion h

/-- Witness for C3: an initialized engine whose final transcript is "hi"
yields exactly one `final` event followed by `done`. -/
theorem stop_finalize_instance :
    (voskLoop (VoskEngine.stream_init ⟨none⟩ bHiFinal) [Msg.stopMsg]).events =
      [Ev.finalE "hi" none, Ev.doneE] := by
  have h := stop_finalize_spec.2.2.1 (VoskEngine.stream_init ⟨none⟩ bHiFinal) []
    ⟨true, "hi", none, ⟨some "hi", none, none⟩⟩ rfl
  simpa using h.1

/-! C8 -/

/-- C8: when the engine identifier is unrecognized (after lowercasing) or
a required model/resource path is missing, engine resolution fails, and
the session then emits exactly one `error` event carrying the resolution
detail, closes the connection, and makes zero engine audio calls — no
audio chunk is ever fed to an engine, so the session never reaches
streaming. -/
theorem resolution_failure_spec (env : Env) (name : String) (b : RecBehavior)
    (tr : List ℕ → Except String TRes) (c : Frame → Bool) (sr : ℕ)
    (fm pm : ℤ) (msgs : List Msg) :
    (∀ d, get_engine env name = .error d →
      stream env name b tr c sr fm pm msgs = ⟨[Ev.errorE d], true, 0⟩)
    ∧ ((lowerStr name ≠ "vosk" ∧ lowerStr name ≠ "whispercpp")
        ∨ (lowerStr name = "vosk" ∧ env.voskModelDir = false)
        ∨ (lowerStr name = "whispercpp"
            ∧ (env.whisperCli = false ∨ env.whisperModel = false)) →
      ∃ d, get_engine env name = .error d) := by
  constructor
  · intro d h
    simp [stream, h]
  · intro h
    rcases h with ⟨h1, h2⟩ | ⟨h1, h2⟩ | ⟨h1, h2⟩
    · exact ⟨"Unknown engine: " ++ name, by simp [get_engine, h1, h2]⟩
    · exact ⟨"Vosk model path not found", by simp [get_engine, h1, h2]⟩
    · rcases h2 with h2 | h2
      · exact ⟨"whisper-cli not found", by simp [get_engine, h1, h2]⟩
      · cases hc : env.whisperCli
        · exact ⟨"whisper-cli not found", by simp [get_engine, h1, hc]⟩
        · exact ⟨"Whisper model not found", by simp [get_engine, h1, hc, h2]⟩

/-- Witness for C8 at the unknown identifier "bogus". -/
theorem resolution_failure_instance :
    stream envAll "bogus" bTrivial trC4 cC4 8000 10 10 [] =
      ⟨[Ev.errorE ("Unknown engine: " ++ "bogus")], true, 0⟩ :=
  (resolution_failure_spec envAll "bogus" bTrivial trC4 cC4 8000 10 10 []).1
    ("Unknown engine: " ++ "bogus") rfl

/-! C1 -/

/-- C1 is false as stated: with capacity 2 (padding 60 ms at 30 ms
frames) and a single speech frame, every frame currently held in the
ring buffer is speech — the speech fraction of the held frames is 1,
exceeding 0.9 — yet the segmenter does not transition to ACTIVE, because
the code compares the count against 0.9 times the fixed capacity, not
0.9 times the current occupancy. -/
theorem vadStep_fraction_counterexample :
    numPaddingFrames 60 (normalize_frame_ms 30) = 2
    ∧ (vadStep (fun _ => true) (vadInit 2) frame0).1.triggered = false
    ∧ (vadStep (fun _ => true) (vadInit 2) frame0).1.ring.length = 1
    ∧ 10 * countSpeech ((vadStep (fun _ => true) (vadInit 2) frame0).1.ring) >
        9 * ((vadStep (fun _ => true) (vadInit 2) frame0).1.ring.length) := by
  decide

/-- C1 (amended): the IDLE→ACTIVE transition occurs exactly when the
number of speech-classified frames in the ring buffer (after pushing the
current frame) exceeds 0.9 times the fixed ring-buffer capacity — not
0.9 times the number of frames currently held — and on triggering the
in-progress segment is seeded with all frames currently in the ring
buffer and the ring buffer is cleared; symmetrically, the ACTIVE→IDLE
transition occurs exactly when the silence count exceeds 0.9 times the
capacity, and on triggering the in-progress segment (including the
current frame) is emitted and both the segment and the ring buffer are
cleared. -/
theorem vadStep_threshold_spec (c : Frame → Bool) (s : VadState) (f : Frame) :
    (s.triggered = false →
      ((vadStep c s f).1.triggered = true
        ↔ 10 * countSpeech (pushRing s.cap s.ring (f, c f)) > 9 * s.cap)
      ∧ (10 * countSpeech (pushRing s.cap s.ring (f, c f)) > 9 * s.cap →
        (vadStep c s f).1.voiced =
          s.voiced ++ (pushRing s.cap s.ring (f, c f)).map Prod.fst
        ∧ (vadStep c s f).1.ring = []
        ∧ (vadStep c s f).2 = []))
    ∧ (s.triggered = true →
      ((vadStep c s f).1.triggered = false
        ↔ 10 * countSilence (pushRing s.cap s.ring (f, c f)) > 9 * s.cap)
      ∧ (10 * countSilence (pushRing s.cap s.ring (f, c f)) > 9 * s.cap →
        (vadStep c s f).2 = [s.voiced ++ [f]]
        ∧ (vadStep c s f).1.ring = []
        ∧ (vadStep c s f).1.voiced = [])) := by
  constructor
  · intro ht
    unfold vadStep
    simp only [ht]
    by_cases hcond : 10 * countSpeech (pushRing s.cap s.ring (f, c f)) > 9 * s.cap <;>
      simp [hcond]
  · intro ht
    unfold vadStep
    simp only [ht]
    by_cases hcond : 10 * countSilence (pushRing s.cap s.ring (f, c f)) > 9 * s.cap <;>
      simp [hcond]

/-- Witness for C1: with capacity 1 a single speech frame triggers the
IDLE→ACTIVE transition. -/
theorem vadStep_threshold_instance :
    (vadStep (fun _ => true) (vadInit 1) frame0).1.triggered = true :=
  ((vadStep_threshold_spec (fun _ => true) (vadInit 1) frame0).1 rfl).1.mpr
    (by decide)

/-! C4 -/

set_option maxRecDepth 100000 in
/-- C4 is false as stated: in a batch session whose buffer holds four
frames segmented into two speech segments, a failing `transcribe` on the
first segment yields a single `error` event and the second segment is
never transcribed (no `final` event at all) — the handler's `try` wraps
the whole per-segment loop, not each call. -/
theorem engine_failure_counterexample :
    (stream envAll "whispercpp" bTrivial trC4 cC4 8000 10 10
      [Msg.chunk pcmC4, Msg.stopMsg]).events =
      [Ev.errorE "VAD/batch failed: boom", Ev.doneE]
    ∧ (vad_collector 8000 10 10 cC4 (frame_generator 10 pcmC4 8000)).length = 2
    ∧ (vad_collector 8000 10 10 cC4 (frame_generator 10 pcmC4 8000)).map trC4 =
        [.error "boom", .ok ⟨"ok2"⟩] := by
  refine ⟨by decide, by decide, rfl⟩

/-- C4 (amended): a failure of a single `stream_feed` call is caught
individually, reported as exactly one `error` event, and the session
continues processing the remaining messages with the updated engine; in
the batch stop path, a failing `transcribe` is caught by the single
handler wrapped around the whole per-segment loop — it is reported as
exactly one `error` event and the remaining segments are skipped — after
which the buffer is still cleared and the session still emits `done` and
closes. -/
theorem engine_failure_spec :
    (∀ (b : RecBehavior) (n : ℕ) (m : String) (bs : List ℕ) (rest : List Msg),
      b.accept n = .error m →
      (voskLoop ⟨some ⟨b, n⟩⟩ (Msg.chunk bs :: rest)).events =
        Ev.errorE ("stream_feed failed: " ++ m) ::
          (voskLoop ⟨some ⟨b, n + 1⟩⟩ rest).events
      ∧ (voskLoop ⟨some ⟨b, n⟩⟩ (Msg.chunk bs :: rest)).closed =
          (voskLoop ⟨some ⟨b, n + 1⟩⟩ rest).closed)
    ∧ (∀ (tr : List ℕ → Except String TRes) (m : String) (s : List ℕ)
        (rest : List (List ℕ)),
      tr s = .error m →
      batchFlush tr (s :: rest) = ([Ev.errorE ("VAD/batch failed: " ++ m)], 1))
    ∧ (∀ (tr : List ℕ → Except String TRes) (c : Frame → Bool) (sr : ℕ)
        (fm pm : ℤ) (buffer : List ℕ) (rest : List Msg),
      buffer ≠ [] →
      (batchLoop tr c sr fm pm buffer (Msg.stopMsg :: rest)).events =
        (batchFlush tr (vad_collector sr fm pm c
          (frame_generator fm buffer sr))).1 ++ [Ev.doneE]
      ∧ (batchLoop tr c sr fm pm buffer (Msg.stopMsg :: rest)).buffer = []
      ∧ (batchLoop tr c sr fm pm buffer (Msg.stopMsg :: rest)).closed = true) := by
  refine ⟨?_, ?_, ?_⟩
  · intro b n m bs rest h
    constructor <;> simp [voskLoop, VoskEngine.stream_feed, h]
  · intro tr m s rest h
    simp [batchFlush, h]
  · intro tr c sr fm pm buffer rest h
    cases buffer
    · exact absurd rfl h
    · exact ⟨by simp [batchLoop], by simp [batchLoop], by simp [batchLoop]⟩

/-- Witness for C4: a failed feed call prepends one error event to the
continued session's events, and a failed first transcribe aborts the
segment loop with one error event. -/
theorem engine_failure_instance :
    (voskLoop ⟨some ⟨bFeedErr, 0⟩⟩ [Msg.chunk [], Msg.stopMsg]).events =
      Ev.errorE ("stream_feed failed: " ++ "boom") ::
        (voskLoop ⟨some ⟨bFeedErr, 1⟩⟩ [Msg.stopMsg]).events
    ∧ batchFlush trC4 [[0]] =
        ([Ev.errorE ("VAD/batch failed: " ++ "boom")], 1) :=
  ⟨(engine_failure_spec.1 bFeedErr 0 "boom" [] [Msg.stopMsg] rfl).1,
    engine_failure_spec.2.1 trC4 "boom" [0] [] rfl⟩

/-! C6 -/

/-- Characterization of the slicing loop: with positive frame size and
enough fuel, it produces one frame per full `bpf`-byte block of the
input, in input order, with timestamps advancing by `dur` from `ts`. -/
theorem sliceGo_eq (bpf : ℕ) (hb : 0 < bpf) (dur : ℚ) :
    ∀ (fuel : ℕ) (pcm : List ℕ) (ts : ℚ), pcm.length ≤ fuel →
      sliceGo bpf dur fuel ts pcm =
        (List.range (pcm.length / bpf)).map
          (fun i => ⟨(pcm.drop (i * bpf)).take bpf, ts + i * dur, dur⟩) := by
  intro fuel
  induction fuel with
  | zero =>
    intro pcm ts h
    obtain rfl : pcm = [] := List.eq_nil_of_length_eq_zero (Nat.le_zero.mp h)
    simp [sliceGo]
  | succ fuel ih =>
    intro pcm ts h
    by_cases hle : bpf ≤ pcm.length
    · have hlen : (pcm.drop bpf).length ≤ fuel := by
        rw [List.length_drop]; omega
      rw [sliceGo, if_pos ⟨hb, hle⟩, ih (pcm.drop bpf) (ts + dur) hlen]
      have hdiv : pcm.length / bpf = (pcm.length - bpf) / bpf + 1 :=
        Nat.div_eq_sub_div hb hle
      rw [hdiv, List.range_succ_eq_map, List.map_cons, List.map_map,
        List.length_drop]
      congr 1
      · simp
      · refine List.map_congr_left ?_
        intro i _
        simp only [Function.comp]
        congr 1
        · rw [List.drop_drop, Nat.succ_mul, Nat.add_comm]
        · push_cast
          ring
    · rw [sliceGo, if_neg (fun hcon => hle hcon.2)]
      have hz : pcm.length / bpf = 0 := Nat.div_eq_of_lt (by omega)
      simp [hz]

/-- C6 (amended): the slicer yields exactly
⌊total_bytes / frame_byte_length⌋ frames, where frame_byte_length is the
integer ⌊sample_rate × normalized_ms × 2 / 1000⌋ (the code truncates the
real product to an integer; the two differ whenever 500 does not divide
sample_rate × normalized_ms), assumed positive; the i-th frame consists
of exactly the i-th consecutive frame_byte_length-byte block of the
input, so frames appear in strict input order, the remainder is dropped,
and the i-th timestamp is i times the frame duration
frame_byte_length/(2 × sample_rate), starting at 0.0. -/
theorem frame_generator_slices (ms : ℤ) (sr : ℕ) (pcm : List ℕ)
    (h : 0 < bytesPerFrame sr ms) :
    frame_generator ms pcm sr =
      (List.range (pcm.length / bytesPerFrame sr ms)).map
        (fun i =>
          ⟨(pcm.drop (i * bytesPerFrame sr ms)).take (bytesPerFrame sr ms),
            (i : ℚ) * ((bytesPerFrame sr ms : ℚ) / (2 * (sr : ℚ))),
            (bytesPerFrame sr ms : ℚ) / (2 * (sr : ℚ))⟩) := by
  unfold frame_generator
  rw [sliceGo_eq (bytesPerFrame sr ms) h _ pcm.length pcm 0 le_rfl]
  refine List.map_congr_left ?_
  intro i _
  simp

/-- C6 is false as stated: at sample rate 251 Hz with 10 ms frames, the
real-product frame byte length of the claim is 251 × (10/1000) × 2 =
5.02, which no frame can have exactly; the code's frames have 160 ⌊·⌋ 5
bytes each, and 10 input bytes yield 2 frames while the claim's formula
⌊10 / 5.02⌋ predicts 1. -/
theorem frame_generator_counterexample :
    (frame_generator 10 (List.replicate 10 0) 251).length = 2
    ∧ (frame_generator 10 (List.replicate 10 0) 251).map
        (fun fr => fr.bytes.length) = [5, 5]
    ∧ ⌊((List.replicate 10 (0 : ℕ)).length : ℚ) /
        ((251 : ℚ) * (10 / 1000) * 2)⌋ = 1
    ∧ ¬ ((5 : ℚ) = (251 : ℚ) * (10 / 1000) * 2) := by
  refine ⟨by decide, by decide, ?_, by norm_num⟩
  simp only [List.length_replicate]
  norm_num

set_option maxRecDepth 100000 in
/-- Witness for C6: 320 bytes at 16000 Hz with 10 ms frames yield one
320-byte frame with timestamp 0 and duration 1/100 s. -/
theorem frame_generator_slices_instance :
    frame_generator 10 (List.replicate 320 0) 16000 =
      [⟨List.replicate 320 0, 0, 1 / 100⟩] := by
  have hb : bytesPerFrame 16000 10 = 320 := rfl
  rw [frame_generator_slices 10 16000 (List.replicate 320 0)
    (by rw [hb]; norm_num)]
  simp only [hb, List.length_replicate]
  norm_num [List.range_succ, List.take_replicate]

/-! C7 -/

/-- Pushing onto the ring buffer keeps the underlying frames a sublist of
the old frames followed by the new one. -/
theorem pushRing_fst_sublist (cap : ℕ) (r : List (Frame × Bool))
    (x : Frame × Bool) :
    ((pushRing cap r x).map Prod.fst).Sublist (r.map Prod.fst ++ [x.1]) := by
  unfold pushRing
  split
  · simp only [List.map_append, List.map_cons, List.map_nil]
    exact List.Sublist.refl _
  · simp only [List.map_append, List.map_drop, List.map_cons, List.map_nil]
    exact (List.drop_sublist 1 (r.map Prod.fst)).append (List.Sublist.refl _)

/-- One segmenter step: the frames it emits plus the frames still
reachable afterwards form a sublist of the previously reachable frames
followed by the new frame. -/
theorem vadStep_reach (c : Frame → Bool) (s : VadState) (f : Frame) :
    ((vadStep c s f).2.flatten ++ reach (vadStep c s f).1).Sublist
      (reach s ++ [f]) := by
  obtain ⟨cap, tr, ring, voiced⟩ := s
  cases tr
  all_goals simp [vadStep]
  all_goals split
  all_goals simp [reach]
  all_goals exact pushRing_fst_sublist cap ring (f, c f)

/-- The whole segmenter loop: emitted frames plus still-reachable frames
form a sublist of the initially reachable frames followed by the input. -/
theorem vadFold_reach (c : Frame → Bool) :
    ∀ (frames : List Frame) (s : VadState),
      ((vadFold c s frames).2.flatten ++ reach (vadFold c s frames).1).Sublist
        (reach s ++ frames) := by
  intro frames
  induction frames with
  | nil =>
    intro s
    simp [vadFold]
  | cons f rest ih =>
    intro s
    have h1 := vadStep_reach c s f
    have h2 := ih (vadStep c s f).1
    have key : (vadFold c s (f :: rest)).2.flatten
        ++ reach (vadFold c s (f :: rest)).1
        = (vadStep c s f).2.flatten
          ++ ((vadFold c (vadStep c s f).1 rest).2.flatten
            ++ reach (vadFold c (vadStep c s f).1 rest).1) := by
      simp [vadFold, List.flatten_append, List.append_assoc]
    rw [key]
    refine (h2.append_left (vadStep c s f).2.flatten).trans ?_
    have h3 := h1.append_right rest
    rw [List.append_assoc, List.append_assoc, List.singleton_append] at h3
    exact h3

/-- C7: the concatenation of the frames underlying all segments emitted
by the segmenter, in emission order, is an order-preserving,
non-overlapping subsequence (a `List.Sublist`) of the input frame
sequence, for every classifier and every ring-buffer capacity. -/
theorem vad_segments_sublist (c : Frame → Bool) (cap : ℕ)
    (frames : List Frame) :
    ((vadSegmentsFrames c cap frames).flatten).Sublist frames := by
  unfold vadSegmentsFrames
  have h := vadFold_reach c frames (vadInit cap)
  have hinit : reach (vadInit cap) = [] := by simp [reach, vadInit]
  rw [hinit, List.nil_append] at h
  dsimp only
  rw [List.flatten_append]
  have hflush :
      (((if (vadFold c (vadInit cap) frames).1.voiced.isEmpty then []
        else [(vadFold c (vadInit cap) frames).1.voiced]) :
          List (List Frame)).flatten).Sublist
        (reach (vadFold c (vadInit cap) frames).1) := by
    by_cases hv : (vadFold c (vadInit cap) frames).1.voiced.isEmpty
    · simp [hv]
    · unfold reach
      by_cases ht : (vadFold c (vadInit cap) frames).1.triggered
      · simp [hv, ht]
      · simp only [hv, ht, Bool.false_eq_true, if_false, List.flatten_cons,
          List.flatten_nil, List.append_nil]
        exact List.sublist_append_left _ _
  exact (hflush.append_left _).trans h

end VoiceRag
